import Mathlib

/-!
Verification of the OIC-LogLens match-and-enrich pipeline.

This file gives a shallow embedding of the core services of the repository
(`src/graph_service.py`, `src/ingestion_service.py`, `src/db.py`,
`src/search_service.py`, `temp/AIOps/services/aiops_service.py`,
`temp/AIOps/services/oracle_semantic_repository.py`) and proves or refutes
the specified properties about them.

Modelling conventions:
 - Python strings are Lean `String`; slicing `s[:n]` is `strTake n s`.
 - Python truthiness of an optional string (`if x:`) is `truthy`,
   of a plain string is `¬ s.isEmpty`.
 - Oracle tables are Lean lists of row structures; SQL `MERGE`/`INSERT`/
   `SELECT` statements are translated clause by clause.
 - Similarity scores and vector entries are `ℚ` (the decision logic of the
   source only compares and arithmetically combines them).
 - Fresh edge ids (`uuid.uuid4()`) are modelled by a counter in the store.
-/

namespace OicLogLens

/-- Python string slicing `s[:n]` (by code points, as in CPython). -/
def strTake (n : Nat) (s : String) : String :=
  String.mk (s.data.take n)

/-- Python truthiness of an `Optional[str]`: `None` and `""` are falsy. -/
def truthy : Option String → Bool
  | none => false
  | some s => !s.isEmpty

/-- Value of an optional string where the source has already checked truthiness. -/
def orEmpty : Option String → String
  | none => ""
  | some s => s

/-- Python `jira_id.split("/")[-1] if "/" in jira_id else jira_id`: the
suffix of `s` after its last `/` (the whole string when there is none). -/
def lastSeg (s : String) : String :=
  String.mk ((s.data.reverse.takeWhile (fun c => c != '/')).reverse)

/-! ## Knowledge-graph store (`src/graph_service.py`) -/

/-- Edge/node property bags; the source serialises a Python dict with
`json.dumps`, which is a deterministic function of the pairs. -/
abbrev Props := List (String × String)

/-- One row of `OIC_KB_GRAPH_NODES`. -/
structure GraphNode where
  nodeId : String
  nodeType : String
  nodeValue : String
  properties : Option Props
  deriving Repr, DecidableEq

/-- One row of `OIC_KB_GRAPH_EDGES`.  `edgeId` models the fresh
`uuid.uuid4()` primary key. -/
structure GraphEdge where
  edgeId : Nat
  fromNode : String
  toNode : String
  edgeType : String
  properties : Option Props
  deriving Repr, DecidableEq

/-- The two graph tables plus the fresh-id supply. -/
structure GraphDB where
  nodes : List GraphNode
  edges : List GraphEdge
  nextEdgeId : Nat
  deriving Repr, DecidableEq

def emptyGraph : GraphDB := ⟨[], [], 0⟩

/-- `_make_node_id`: composite id `f"{node_type}:{node_value}"[:200]`. -/
def makeNodeId (nodeType nodeValue : String) : String :=
  strTake 200 (nodeType ++ ":" ++ nodeValue)

/-- `_upsert_node`: `MERGE` on `NODE_ID`, inserting
`(node_id, node_type, node_value[:500], properties)` only when no row with
that `NODE_ID` exists; returns the node id either way. -/
def upsertNode (db : GraphDB) (nodeType nodeValue : String)
    (properties : Option Props) : GraphDB × String :=
  let nodeId := makeNodeId nodeType nodeValue
  if db.nodes.any (fun n => n.nodeId == nodeId) then
    (db, nodeId)
  else
    ({ db with
        nodes := db.nodes ++ [⟨nodeId, nodeType, strTake 500 nodeValue, properties⟩] },
     nodeId)

/-- `CHECK_EDGE_SQL`: `SELECT COUNT(*) ... WHERE FROM_NODE = ... AND
TO_NODE = ... AND EDGE_TYPE = ...`. -/
def checkEdge (db : GraphDB) (fromNode toNode edgeType : String) : Nat :=
  (db.edges.filter (fun e =>
    e.fromNode == fromNode && e.toNode == toNode && e.edgeType == edgeType)).length

/-- `_insert_edge`: existence-check-before-insert; a no-op when an edge with
the same `(from, to, type)` triple already exists, otherwise an insert with a
fresh edge id. -/
def insertEdge (db : GraphDB) (fromNode toNode edgeType : String)
    (properties : Option Props) : GraphDB :=
  if checkEdge db fromNode toNode edgeType > 0 then
    db
  else
    { db with
        edges := db.edges ++ [⟨db.nextEdgeId, fromNode, toNode, edgeType, properties⟩],
        nextEdgeId := db.nextEdgeId + 1 }

/-- The fields of a normalized log that `add_log_to_graph` reads
(`flow.code`, `flow.trigger_type`, `error.code`, `error.endpoint_name`,
`error.message_parsed.root_cause`). -/
structure NormLog where
  flowCode : Option String
  triggerType : Option String
  errorCode : Option String
  endpointName : Option String
  rootCause : Option String
  deriving Repr, DecidableEq

/-- `_insert_edge` guarded by both endpoints being present, as in the
`if flow_node and error_node:` blocks of `add_log_to_graph`. -/
def insertEdgeIfBoth (db : GraphDB) (a b : Option String) (edgeType : String) : GraphDB :=
  match a, b with
  | some x, some y => insertEdge db x y edgeType none
  | _, _ => db

/-- `add_log_to_graph`: upserts FlowCode / Error / Endpoint / RootCause /
JiraTicket nodes as available and connects
FlowCode→Error (`HAD_ERROR`), Error→Endpoint (`ON_ENDPOINT`),
Error→RootCause (`HAS_ROOT_CAUSE`), FlowCode→JiraTicket (`LOGGED_IN`).
Returns `false` (skip) when neither a flow code nor an error code is present. -/
def addLogToGraph (db : GraphDB) (log : NormLog) (jiraId : String) : GraphDB × Bool :=
  if !truthy log.flowCode && !truthy log.errorCode then
    (db, false)
  else
    let s1 :=
      if truthy log.flowCode then
        let props : Option Props :=
          if truthy log.triggerType then some [("trigger_type", orEmpty log.triggerType)]
          else none
        let r := upsertNode db "FlowCode" (orEmpty log.flowCode) props
        (r.1, some r.2)
      else (db, (none : Option String))
    let s2 :=
      if truthy log.errorCode then
        let r := upsertNode s1.1 "Error" (orEmpty log.errorCode) none
        (r.1, some r.2)
      else (s1.1, (none : Option String))
    let s3 :=
      if truthy log.endpointName then
        let r := upsertNode s2.1 "Endpoint" (orEmpty log.endpointName) none
        (r.1, some r.2)
      else (s2.1, (none : Option String))
    let s4 :=
      if truthy log.rootCause then
        let r := upsertNode s3.1 "RootCause" (orEmpty log.rootCause) none
        (r.1, some r.2)
      else (s3.1, (none : Option String))
    let s5 :=
      if !jiraId.isEmpty then
        let r := upsertNode s4.1 "JiraTicket" (lastSeg jiraId) (some [("full_url", jiraId)])
        (r.1, some r.2)
      else (s4.1, (none : Option String))
    let db6 := insertEdgeIfBoth s5.1 s1.2 s2.2 "HAD_ERROR"
    let db7 := insertEdgeIfBoth db6 s2.2 s3.2 "ON_ENDPOINT"
    let db8 := insertEdgeIfBoth db7 s2.2 s4.2 "HAS_ROOT_CAUSE"
    let db9 := insertEdgeIfBoth db8 s1.2 s5.2 "LOGGED_IN"
    (db9, true)

/-- One ingested record as seen by the graph layer: the normalized log plus
the Jira id it was stored under. -/
structure IngestItem where
  log : NormLog
  jira : String
  deriving Repr, DecidableEq

/-- The graph produced by a sequence of ingests starting from the empty
graph (each ingest calls `add_log_to_graph`). -/
def ingestAll (items : List IngestItem) : GraphDB :=
  items.foldl (fun db it => (addLogToGraph db it.log it.jira).1) emptyGraph

/-- `add_jira_relationship`: builds the two JiraTicket node ids and inserts a
single typed edge between them; the confidence is attached as an edge
property when truthy (Python `if confidence` — `0` and `None` are falsy). -/
def addJiraRelationship (db : GraphDB) (fromJiraId toJiraId edgeType : String)
    (confidence : Option Nat) : GraphDB :=
  let fromTicket := lastSeg fromJiraId
  let toTicket := lastSeg toJiraId
  let fromNode := makeNodeId "JiraTicket" fromTicket
  let toNode := makeNodeId "JiraTicket" toTicket
  let props : Option Props :=
    match confidence with
    | some c => if c ≠ 0 then some [("confidence", toString c)] else none
    | none => none
  insertEdge db fromNode toNode edgeType props

/-! ## Enrichment reads (`enrich_search_results` and its SQL) -/

/-- One row of `GET_KG_INSIGHTS_SQL`: `(n2.NODE_TYPE, n2.NODE_VALUE,
e.EDGE_TYPE)` for every edge `e` leaving `nodeId`, joined against the nodes
table on both endpoints (a row appears only when both endpoint nodes exist,
once per matching join partner). -/
def kgInsightRows (db : GraphDB) (nodeId : String) :
    List (String × String × String) :=
  (db.edges.filter (fun e => e.fromNode == nodeId)).flatMap fun e =>
    (db.nodes.filter (fun n1 => n1.nodeId == e.fromNode)).flatMap fun _ =>
      (db.nodes.filter (fun n2 => n2.nodeId == e.toNode)).map fun n2 =>
        (n2.nodeType, n2.nodeValue, e.edgeType)

/-- `GET_RELATED_TICKETS_SQL`: `n2.NODE_VALUE` of every node reached from
`jiraNode` over a `DUPLICATE_OF` or `RELATED_TO` edge. -/
def relatedTicketRows (db : GraphDB) (jiraNode : String) : List String :=
  (db.edges.filter (fun e =>
      e.fromNode == jiraNode &&
      (e.edgeType == "DUPLICATE_OF" || e.edgeType == "RELATED_TO"))).flatMap fun e =>
    (db.nodes.filter (fun n2 => n2.nodeId == e.toNode)).map fun n2 => n2.nodeValue

/-- The `kg_insights` dict attached to each search match. -/
structure KgInsights where
  rootCause : Option String
  endpoints : List String
  recurrenceCount : Nat
  relatedTickets : List String
  deriving Repr, DecidableEq

/-- The loop body of `enrich_search_results` over the insight rows:
`HAS_ROOT_CAUSE` rows overwrite `root_cause` (the last one wins),
`ON_ENDPOINT` rows append to `endpoints`. -/
def applyInsightRow (acc : Option String × List String) :
    String × String × String → Option String × List String
  | (_, nodeValue, edgeType) =>
    if edgeType == "HAS_ROOT_CAUSE" then (some nodeValue, acc.2)
    else if edgeType == "ON_ENDPOINT" then (acc.1, acc.2 ++ [nodeValue])
    else acc

/-- One search match as consumed by `enrich_search_results`
(`jira_id`, `flow_code`, `error_code` with `.get(..., "")` defaults). -/
structure MatchKeys where
  jiraId : Option String
  flowCode : Option String
  errorCode : Option String

/-- The insights computed for one match by `enrich_search_results`:
root cause and endpoints from the edges leaving the match's Error node,
recurrence from `GET_RECURRENCE_SQL` (the count of
`FlowCode --HAD_ERROR--> Error` edges), related tickets from the match's
JiraTicket node. -/
def insightsFor (db : GraphDB) (m : MatchKeys) : KgInsights :=
  let jiraId := orEmpty m.jiraId
  let flowCode := orEmpty m.flowCode
  let errorCode := orEmpty m.errorCode
  let ticketId := lastSeg jiraId
  let jiraNode := makeNodeId "JiraTicket" ticketId
  let flowNode : Option String :=
    if !flowCode.isEmpty then some (makeNodeId "FlowCode" flowCode) else none
  let errorNode : Option String :=
    if !errorCode.isEmpty then some (makeNodeId "Error" errorCode) else none
  let rcEp : Option String × List String :=
    match errorNode with
    | some en => (kgInsightRows db en).foldl applyInsightRow (none, [])
    | none => (none, [])
  let recurrence : Nat :=
    match flowNode, errorNode with
    | some fn, some en => checkEdge db fn en "HAD_ERROR"
    | _, _ => 0
  -- `jira_node` is always a nonempty string in the source, so the
  -- `if jira_node:` guard is always taken.
  { rootCause := rcEp.1
    endpoints := rcEp.2
    recurrenceCount := recurrence
    relatedTickets := relatedTicketRows db jiraNode }

/-! ## Basic store lemmas -/

theorem upsertNode_edges (db : GraphDB) (t v : String) (p : Option Props) :
    (upsertNode db t v p).1.edges = db.edges := by
  unfold upsertNode
  dsimp only
  split <;> rfl

theorem upsertNode_nextEdgeId (db : GraphDB) (t v : String) (p : Option Props) :
    (upsertNode db t v p).1.nextEdgeId = db.nextEdgeId := by
  unfold upsertNode
  dsimp only
  split <;> rfl

theorem filter_edge_singleton (a b t a' b' t' : String) (p : Option Props) (i : Nat) :
    (List.filter (fun e : GraphEdge => e.fromNode == a && e.toNode == b && e.edgeType == t)
      [{ edgeId := i, fromNode := a', toNode := b', edgeType := t', properties := p }]).length =
    if a' = a ∧ b' = b ∧ t' = t then 1 else 0 := by
  by_cases h : a' = a ∧ b' = b ∧ t' = t
  · obtain ⟨h1, h2, h3⟩ := h
    subst h1; subst h2; subst h3
    simp
  · rw [if_neg h]
    have hb : ((a' == a && b' == b && t' == t) : Bool) = false := by
      rw [Bool.eq_false_iff]
      intro hc
      exact h (by simpa [Bool.and_eq_true, beq_iff_eq, and_assoc] using hc)
    simp [List.filter, hb]

theorem checkEdge_insertEdge (db : GraphDB) (a b t a' b' t' : String) (p : Option Props) :
    checkEdge (insertEdge db a' b' t' p) a b t =
      if checkEdge db a' b' t' = 0 then
        checkEdge db a b t + (if a' = a ∧ b' = b ∧ t' = t then 1 else 0)
      else checkEdge db a b t := by
  unfold insertEdge
  by_cases hz : checkEdge db a' b' t' = 0
  · rw [if_neg (show ¬ checkEdge db a' b' t' > 0 by omega), if_pos hz]
    show checkEdge { db with
        edges := db.edges ++ [⟨db.nextEdgeId, a', b', t', p⟩],
        nextEdgeId := db.nextEdgeId + 1 } a b t = _
    unfold checkEdge
    simp only [List.filter_append, List.length_append]
    rw [filter_edge_singleton]
  · rw [if_pos (show checkEdge db a' b' t' > 0 by omega), if_neg hz]

theorem checkEdge_insertEdge_le (db : GraphDB) (a b t a' b' t' : String)
    (p : Option Props) (h : checkEdge db a b t ≤ 1) :
    checkEdge (insertEdge db a' b' t' p) a b t ≤ 1 := by
  rw [checkEdge_insertEdge]
  by_cases hz : checkEdge db a' b' t' = 0
  · rw [if_pos hz]
    by_cases hm : a' = a ∧ b' = b ∧ t' = t
    · rw [if_pos hm]
      obtain ⟨h1, h2, h3⟩ := hm
      subst h1; subst h2; subst h3
      omega
    · rw [if_neg hm]; omega
  · rw [if_neg hz]; exact h

theorem checkEdge_insertEdge_ge (db : GraphDB) (a b t a' b' t' : String)
    (p : Option Props) (h : 1 ≤ checkEdge db a b t) :
    1 ≤ checkEdge (insertEdge db a' b' t' p) a b t := by
  rw [checkEdge_insertEdge]
  by_cases hz : checkEdge db a' b' t' = 0
  · rw [if_pos hz]
    by_cases hm : a' = a ∧ b' = b ∧ t' = t
    · rw [if_pos hm]; omega
    · rw [if_neg hm]; omega
  · rw [if_neg hz]; exact h

theorem checkEdge_insertEdge_self (db : GraphDB) (a b t : String) (p : Option Props) :
    1 ≤ checkEdge (insertEdge db a b t p) a b t := by
  rw [checkEdge_insertEdge]
  by_cases hz : checkEdge db a b t = 0
  · rw [if_pos hz, if_pos ⟨rfl, rfl, rfl⟩]; omega
  · rw [if_neg hz]; omega

theorem insertEdge_no_op (db : GraphDB) (a b t : String) (p : Option Props)
    (h : 0 < checkEdge db a b t) : insertEdge db a b t p = db := by
  unfold insertEdge
  rw [if_pos h]

theorem mem_insertEdge (db : GraphDB) (a b t : String) (p : Option Props)
    (e : GraphEdge) (h : e ∈ (insertEdge db a b t p).edges) :
    e ∈ db.edges ∨ (e.fromNode = a ∧ e.toNode = b ∧ e.edgeType = t) := by
  unfold insertEdge at h
  split at h
  · exact Or.inl h
  · simp only [List.mem_append, List.mem_singleton] at h
    rcases h with h | h
    · exact Or.inl h
    · subst h; exact Or.inr ⟨rfl, rfl, rfl⟩

theorem mem_insertEdgeIfBoth (db : GraphDB) (a b : Option String) (t : String)
    (e : GraphEdge) (h : e ∈ (insertEdgeIfBoth db a b t).edges) :
    e ∈ db.edges ∨
      (∃ x y, a = some x ∧ b = some y ∧
        e.fromNode = x ∧ e.toNode = y ∧ e.edgeType = t) := by
  unfold insertEdgeIfBoth at h
  cases a with
  | none => exact Or.inl h
  | some x =>
    cases b with
    | none => exact Or.inl h
    | some y =>
      rcases mem_insertEdge _ _ _ _ _ _ h with h' | h'
      · exact Or.inl h'
      · exact Or.inr ⟨x, y, rfl, rfl, h'⟩

theorem checkEdge_insertEdgeIfBoth_ge (db : GraphDB) (a b : Option String)
    (t x y z : String) (h : 1 ≤ checkEdge db x y z) :
    1 ≤ checkEdge (insertEdgeIfBoth db a b t) x y z := by
  unfold insertEdgeIfBoth
  cases a with
  | none => exact h
  | some u =>
    cases b with
    | none => exact h
    | some v => exact checkEdge_insertEdge_ge _ _ _ _ _ _ _ _ h

/-! ## Claim C6: edge uniqueness and at-most-once-write -/

/-- One `upsertEdge` request (the arguments of one `_insert_edge` call). -/
structure EdgeCall where
  a : String
  b : String
  t : String
  props : Option Props

/-- A sequence of `upsertEdge` calls applied to a store. -/
def applyEdgeCalls (db : GraphDB) (calls : List EdgeCall) : GraphDB :=
  calls.foldl (fun d c => insertEdge d c.a c.b c.t c.props) db

theorem applyEdgeCalls_le_one (calls : List EdgeCall) (db : GraphDB)
    (a b t : String) (h : checkEdge db a b t ≤ 1) :
    checkEdge (applyEdgeCalls db calls) a b t ≤ 1 := by
  induction calls generalizing db with
  | nil => exact h
  | cons c cs ih => exact ih _ (checkEdge_insertEdge_le _ _ _ _ _ _ _ _ h)

/-- C6.  Edge uniqueness invariant: (i) after any sequence of `upsertEdge`
calls starting from the empty store, at most one edge with a given
`(from, to, type)` triple exists; (ii) a second `upsertEdge` call for the
same ordered pair and type is a no-op — in particular it does not update
the stored properties, whatever properties the second call carries. -/
theorem C6_edge_uniqueness (calls : List EdgeCall) (db : GraphDB)
    (a b t : String) (p1 p2 : Option Props) :
    checkEdge (applyEdgeCalls emptyGraph calls) a b t ≤ 1 ∧
    insertEdge (insertEdge db a b t p1) a b t p2 = insertEdge db a b t p1 := by
  constructor
  · exact applyEdgeCalls_le_one calls emptyGraph a b t (by simp [checkEdge, emptyGraph])
  · exact insertEdge_no_op _ a b t p2 (checkEdge_insertEdge_self db a b t p1)

/-- C6 witness: the invariant and the no-op behaviour at a concrete store:
two identical `upsertEdge` calls with different properties leave exactly one
edge, carrying the first call's properties. -/
theorem C6_edge_uniqueness_witness :
    checkEdge (applyEdgeCalls emptyGraph
      [⟨"A", "B", "DUPLICATE_OF", none⟩, ⟨"A", "B", "DUPLICATE_OF", some [("confidence", "90")]⟩])
      "A" "B" "DUPLICATE_OF" ≤ 1 ∧
    insertEdge (insertEdge emptyGraph "A" "B" "DUPLICATE_OF" none)
        "A" "B" "DUPLICATE_OF" (some [("confidence", "90")]) =
      insertEdge emptyGraph "A" "B" "DUPLICATE_OF" none :=
  C6_edge_uniqueness
    [⟨"A", "B", "DUPLICATE_OF", none⟩, ⟨"A", "B", "DUPLICATE_OF", some [("confidence", "90")]⟩]
    emptyGraph "A" "B" "DUPLICATE_OF" none (some [("confidence", "90")])

/-! ## Claim C8: which edges does the graph write create? -/

theorem upsertNode_snd (db : GraphDB) (t v : String) (p : Option Props) :
    (upsertNode db t v p).2 = makeNodeId t v := by
  unfold upsertNode
  dsimp only
  split <;> rfl

/-- A fully-populated log record used as concrete input. -/
def exLog : NormLog :=
  { flowCode := some "F1", triggerType := some "Scheduled", errorCode := some "E1",
    endpointName := some "EP1", rootCause := some "R1" }

/-- The graph after ingesting `exLog` under ticket `T1` into an empty store. -/
def exDb : GraphDB := (addLogToGraph emptyGraph exLog "T1").1

/-- C8 counterexample: the claim asserts that the graph write additionally
mirrors the Error/Endpoint/RootCause edges directly from the Ticket node.
After ingesting a record with every field populated, the store holds exactly
the four forward edges and not a single edge leaving the JiraTicket node, so
the mirrored edges do not exist. -/
theorem C8_counterexample :
    (exDb.edges.filter (fun e => e.fromNode == makeNodeId "JiraTicket" "T1")).length = 0 ∧
    exDb.edges.length = 4 := by
  decide

/-- C8 (amended): for every record with flow code, error code, endpoint,
root cause and ticket present, `add_log_to_graph` ensures the four edges
FlowCode→Error (`HAD_ERROR`), Error→Endpoint (`ON_ENDPOINT`),
Error→RootCause (`HAS_ROOT_CAUSE`) and FlowCode→Ticket (`LOGGED_IN`) exist,
and every edge it adds is one of those four — in particular no edge is
mirrored from the Ticket node. -/
theorem C8_graph_write_edges (db : GraphDB) (log : NormLog) (jira : String)
    (hf : truthy log.flowCode = true) (he : truthy log.errorCode = true)
    (hep : truthy log.endpointName = true) (hrc : truthy log.rootCause = true)
    (hj : jira.isEmpty = false) :
    (1 ≤ checkEdge (addLogToGraph db log jira).1
        (makeNodeId "FlowCode" (orEmpty log.flowCode))
        (makeNodeId "Error" (orEmpty log.errorCode)) "HAD_ERROR") ∧
    (1 ≤ checkEdge (addLogToGraph db log jira).1
        (makeNodeId "Error" (orEmpty log.errorCode))
        (makeNodeId "Endpoint" (orEmpty log.endpointName)) "ON_ENDPOINT") ∧
    (1 ≤ checkEdge (addLogToGraph db log jira).1
        (makeNodeId "Error" (orEmpty log.errorCode))
        (makeNodeId "RootCause" (orEmpty log.rootCause)) "HAS_ROOT_CAUSE") ∧
    (1 ≤ checkEdge (addLogToGraph db log jira).1
        (makeNodeId "FlowCode" (orEmpty log.flowCode))
        (makeNodeId "JiraTicket" (lastSeg jira)) "LOGGED_IN") ∧
    (∀ e ∈ (addLogToGraph db log jira).1.edges, e ∈ db.edges ∨
      (e.fromNode = makeNodeId "FlowCode" (orEmpty log.flowCode) ∧
        e.toNode = makeNodeId "Error" (orEmpty log.errorCode) ∧
        e.edgeType = "HAD_ERROR") ∨
      (e.fromNode = makeNodeId "Error" (orEmpty log.errorCode) ∧
        e.toNode = makeNodeId "Endpoint" (orEmpty log.endpointName) ∧
        e.edgeType = "ON_ENDPOINT") ∨
      (e.fromNode = makeNodeId "Error" (orEmpty log.errorCode) ∧
        e.toNode = makeNodeId "RootCause" (orEmpty log.rootCause) ∧
        e.edgeType = "HAS_ROOT_CAUSE") ∨
      (e.fromNode = makeNodeId "FlowCode" (orEmpty log.flowCode) ∧
        e.toNode = makeNodeId "JiraTicket" (lastSeg jira) ∧
        e.edgeType = "LOGGED_IN")) := by
  have hcond : (!truthy log.flowCode && !truthy log.errorCode) = false := by
    simp [hf, he]
  unfold addLogToGraph
  rw [hcond]
  simp only [Bool.false_eq_true, if_false, hf, he, hep, hrc, hj, Bool.not_false, if_true,
    insertEdgeIfBoth, upsertNode_snd]
  refine ⟨?_, ?_, ?_, ?_, ?_⟩
  · apply checkEdge_insertEdge_ge
    apply checkEdge_insertEdge_ge
    apply checkEdge_insertEdge_ge
    exact checkEdge_insertEdge_self _ _ _ _ _
  · apply checkEdge_insertEdge_ge
    apply checkEdge_insertEdge_ge
    exact checkEdge_insertEdge_self _ _ _ _ _
  · apply checkEdge_insertEdge_ge
    exact checkEdge_insertEdge_self _ _ _ _ _
  · exact checkEdge_insertEdge_self _ _ _ _ _
  · intro e he9
    rcases mem_insertEdge _ _ _ _ _ _ he9 with he8 | hsh
    · rcases mem_insertEdge _ _ _ _ _ _ he8 with he7 | hsh
      · rcases mem_insertEdge _ _ _ _ _ _ he7 with he6 | hsh
        · rcases mem_insertEdge _ _ _ _ _ _ he6 with he5 | hsh
          · left
            simpa [upsertNode_edges] using he5
          · right; left; exact hsh
        · right; right; left; exact hsh
      · right; right; right; left; exact hsh
    · right; right; right; right; exact hsh

/-- C8 witness: the amended statement holds at the concrete fully-populated
record `exLog` ingested into the empty store under ticket `T1`. -/
theorem C8_graph_write_edges_witness :
    (1 ≤ checkEdge exDb (makeNodeId "FlowCode" "F1") (makeNodeId "Error" "E1") "HAD_ERROR") ∧
    (1 ≤ checkEdge exDb (makeNodeId "Error" "E1") (makeNodeId "Endpoint" "EP1") "ON_ENDPOINT") ∧
    (1 ≤ checkEdge exDb (makeNodeId "Error" "E1") (makeNodeId "RootCause" "R1") "HAS_ROOT_CAUSE") ∧
    (1 ≤ checkEdge exDb (makeNodeId "FlowCode" "F1") (makeNodeId "JiraTicket" "T1") "LOGGED_IN") := by
  have h := C8_graph_write_edges emptyGraph exLog "T1"
    (by decide) (by decide) (by decide) (by decide) (by decide)
  have hls : lastSeg "T1" = "T1" := by decide
  rw [hls] at h
  exact ⟨h.1, h.2.1, h.2.2.1, h.2.2.2.1⟩

/-! ## Edge provenance in ingest-built graphs (for C1 and C2) -/

theorem mem_insertEdge_iff (db : GraphDB) (a b t : String) (p : Option Props) (e : GraphEdge) :
    e ∈ (insertEdge db a b t p).edges ↔
      e ∈ db.edges ∨ (checkEdge db a b t = 0 ∧ e = ⟨db.nextEdgeId, a, b, t, p⟩) := by
  unfold insertEdge
  split
  · rename_i hpos
    constructor
    · exact Or.inl
    · rintro (hm | ⟨hz, _⟩)
      · exact hm
      · omega
  · rename_i hpos
    have hz : checkEdge db a b t = 0 := by omega
    show e ∈ db.edges ++ [⟨db.nextEdgeId, a, b, t, p⟩] ↔ _
    simp [hz]

theorem mem_insertEdgeIfBoth_ne (db : GraphDB) (a b : Option String) (t : String)
    (e : GraphEdge) (h : e ∈ (insertEdgeIfBoth db a b t).edges)
    (hne : e.edgeType ≠ t) : e ∈ db.edges := by
  rcases mem_insertEdgeIfBoth db a b t e h with h' | ⟨x, y, _, _, _, _, h3⟩
  · exact h'
  · exact absurd h3 hne

/-- The edge list of one conditional node-upsert step of `add_log_to_graph`
is that of the incoming store. -/
theorem fst_edges_upsertStep (c : Bool) (d : GraphDB) (t v : String) (p : Option Props) :
    ((if c = true then ((upsertNode d t v p).1, some (upsertNode d t v p).2)
      else (d, (none : Option String))).1).edges = d.edges := by
  cases c
  · simp
  · simp [upsertNode_edges]

/-- A conditional node-upsert step yields a node id only when its guard is
true, and then the id is the composite id of the upserted node. -/
theorem snd_upsertStep_eq_some (c : Bool) (d : GraphDB) (t v : String) (p : Option Props)
    (x : String)
    (h : (if c = true then ((upsertNode d t v p).1, some (upsertNode d t v p).2)
      else (d, (none : Option String))).2 = some x) :
    c = true ∧ x = makeNodeId t v := by
  cases c
  · simp at h
  · simp only [upsertNode_snd, if_true] at h
    exact ⟨rfl, (Option.some.injEq _ _ ▸ h).symm⟩

/-- Every `HAS_ROOT_CAUSE` edge present after `add_log_to_graph` was either
already present, or connects the record's own Error node to the record's own
RootCause node. -/
theorem hrc_mem_addLogToGraph (db : GraphDB) (log : NormLog) (jira : String) (e : GraphEdge)
    (h : e ∈ (addLogToGraph db log jira).1.edges)
    (ht : e.edgeType = "HAS_ROOT_CAUSE") :
    e ∈ db.edges ∨
    (truthy log.errorCode = true ∧ truthy log.rootCause = true ∧
      e.fromNode = makeNodeId "Error" (orEmpty log.errorCode) ∧
      e.toNode = makeNodeId "RootCause" (orEmpty log.rootCause)) := by
  by_cases hskip : (!truthy log.flowCode && !truthy log.errorCode) = true
  · unfold addLogToGraph at h
    rw [if_pos hskip] at h
    exact Or.inl h
  · unfold addLogToGraph at h
    rw [if_neg hskip] at h
    dsimp only at h
    have h8 := mem_insertEdgeIfBoth_ne _ _ _ _ _ h (by rw [ht]; decide)
    rcases mem_insertEdgeIfBoth _ _ _ _ _ h8 with h7 | ⟨x, y, hx, hy, hfrom, hto, _⟩
    · have h6 := mem_insertEdgeIfBoth_ne _ _ _ _ _ h7 (by rw [ht]; decide)
      have h5 := mem_insertEdgeIfBoth_ne _ _ _ _ _ h6 (by rw [ht]; decide)
      simp only [fst_edges_upsertStep] at h5
      exact Or.inl h5
    · obtain ⟨he2, hx2⟩ := snd_upsertStep_eq_some _ _ _ _ _ _ hx
      obtain ⟨he4, hy4⟩ := snd_upsertStep_eq_some _ _ _ _ _ _ hy
      exact Or.inr ⟨he2, he4, hx2 ▸ hfrom, hy4 ▸ hto⟩

/-- `HAS_ROOT_CAUSE` edge provenance over a whole ingest run: every such edge
originates from one of the ingested records, linking that record's own Error
node to that record's own RootCause node. -/
theorem hrc_mem_ingest (items : List IngestItem) (db : GraphDB) (e : GraphEdge)
    (h : e ∈ (items.foldl (fun d it => (addLogToGraph d it.log it.jira).1) db).edges)
    (ht : e.edgeType = "HAS_ROOT_CAUSE") :
    e ∈ db.edges ∨
    ∃ r ∈ items, truthy r.log.errorCode = true ∧ truthy r.log.rootCause = true ∧
      e.fromNode = makeNodeId "Error" (orEmpty r.log.errorCode) ∧
      e.toNode = makeNodeId "RootCause" (orEmpty r.log.rootCause) := by
  induction items generalizing db with
  | nil => exact Or.inl h
  | cons it rest ih =>
    rcases ih (addLogToGraph db it.log it.jira).1 h with h' | ⟨r, hr, hprops⟩
    · rcases hrc_mem_addLogToGraph db it.log it.jira e h' ht with h'' | hprops
      · exact Or.inl h''
      · exact Or.inr ⟨it, List.mem_cons_self _ _, hprops⟩
    · exact Or.inr ⟨r, List.mem_cons_of_mem _ hr, hprops⟩

theorem hrc_mem_ingestAll (items : List IngestItem) (e : GraphEdge)
    (h : e ∈ (ingestAll items).edges) (ht : e.edgeType = "HAS_ROOT_CAUSE") :
    ∃ r ∈ items, truthy r.log.errorCode = true ∧ truthy r.log.rootCause = true ∧
      e.fromNode = makeNodeId "Error" (orEmpty r.log.errorCode) ∧
      e.toNode = makeNodeId "RootCause" (orEmpty r.log.rootCause) := by
  rcases hrc_mem_ingest items emptyGraph e h ht with h' | h'
  · cases h'
  · exact h'

/-- Provenance of one row of `GET_KG_INSIGHTS_SQL`: it is produced by an edge
leaving the queried node, joined to an existing target node. -/
theorem mem_kgInsightRows (db : GraphDB) (nid : String) (row : String × String × String)
    (h : row ∈ kgInsightRows db nid) :
    ∃ e ∈ db.edges, e.fromNode = nid ∧
      ∃ n2 ∈ db.nodes, n2.nodeId = e.toNode ∧
        row = (n2.nodeType, n2.nodeValue, e.edgeType) := by
  unfold kgInsightRows at h
  simp only [List.mem_flatMap, List.mem_map, List.mem_filter, beq_iff_eq] at h
  obtain ⟨e, ⟨he, hfrom⟩, _, _, n2, ⟨hn2, hid⟩, hrow⟩ := h
  exact ⟨e, he, hfrom, n2, hn2, hid, hrow.symm⟩

/-- The root cause computed by the enrichment row-loop comes from a
`HAS_ROOT_CAUSE` row (the last one wins), unless it was already set. -/
theorem foldl_applyInsightRow_rootCause (rows : List (String × String × String))
    (acc : Option String × List String) (v : String)
    (h : (rows.foldl applyInsightRow acc).1 = some v) :
    acc.1 = some v ∨ ∃ row ∈ rows, row.2.2 = "HAS_ROOT_CAUSE" ∧ row.2.1 = v := by
  induction rows generalizing acc with
  | nil => exact Or.inl h
  | cons row rest ih =>
    rcases ih (applyInsightRow acc row) h with h' | ⟨row', hr, hprops⟩
    · unfold applyInsightRow at h'
      obtain ⟨nt, nv, et⟩ := row
      dsimp only at h'
      by_cases hrc : (et == "HAS_ROOT_CAUSE") = true
    -- the row sets the root cause
      · rw [if_pos hrc] at h'
        refine Or.inr ⟨(nt, nv, et), List.mem_cons_self _ _, ?_, ?_⟩
        · exact beq_iff_eq.mp hrc
        · exact (Option.some.injEq _ _ ▸ h').symm ▸ rfl
      · rw [if_neg hrc] at h'
        by_cases hep : (et == "ON_ENDPOINT") = true
        · rw [if_pos hep] at h'
          exact Or.inl h'
        · rw [if_neg hep] at h'
          exact Or.inl h'
    · exact Or.inr ⟨row', List.mem_cons_of_mem _ hr, hprops⟩

/-- The `root_cause` insight for a match is always read off an edge leaving
the match's own Error node. -/
theorem insightsFor_rootCause (db : GraphDB) (m : MatchKeys) (v : String)
    (h : (insightsFor db m).rootCause = some v) :
    ∃ e ∈ db.edges, e.edgeType = "HAS_ROOT_CAUSE" ∧
      e.fromNode = makeNodeId "Error" (orEmpty m.errorCode) ∧
      ∃ n2 ∈ db.nodes, n2.nodeId = e.toNode ∧ n2.nodeValue = v := by
  unfold insightsFor at h
  dsimp only at h
  by_cases hec : ((orEmpty m.errorCode).isEmpty : Bool) = true
  · simp [hec] at h
  · rw [Bool.not_eq_true] at hec
    rw [if_pos (show (!(orEmpty m.errorCode).isEmpty) = true by rw [hec]; rfl)] at h
    rcases foldl_applyInsightRow_rootCause _ _ _ h with h' | ⟨row, hrow, hrc, hval⟩
    · cases h'
    · obtain ⟨e, he, hfrom, n2, hn2, hid, hroweq⟩ :=
        mem_kgInsightRows _ _ _ hrow
    -- read off the row components
      have h1 : row.2.2 = e.edgeType := by rw [hroweq]
      have h2 : row.2.1 = n2.nodeValue := by rw [hroweq]
      exact ⟨e, he, by rw [← h1, hrc], hfrom, n2, hn2, hid, by rw [← h2, hval]⟩

/-- C1.  Scoped enrichment: build the graph by ingesting any sequence of
records.  Fix a search match `m` (ticket A) and an ingested record `rB`
(ticket B) that shares A's FlowCode node but has a different Error node, and
whose RootCause node is not carried by any record with A's Error node.  Then
whatever root-cause value the enrichment returns for A is the value of a
node that is scoped to A's own Error node and is never B's RootCause node. -/
theorem C1_scoped_enrichment (items : List IngestItem) (m : MatchKeys)
    (rB : IngestItem) (v : String)
    (hB : rB ∈ items)
    (hBerr : truthy rB.log.errorCode = true)
    (hBrc : truthy rB.log.rootCause = true)
    (hshareFlow : makeNodeId "FlowCode" (orEmpty rB.log.flowCode) =
      makeNodeId "FlowCode" (orEmpty m.flowCode))
    (hdiffErr : makeNodeId "Error" (orEmpty rB.log.errorCode) ≠
      makeNodeId "Error" (orEmpty m.errorCode))
    (hscope : ∀ r ∈ items, truthy r.log.errorCode = true →
      makeNodeId "Error" (orEmpty r.log.errorCode) =
        makeNodeId "Error" (orEmpty m.errorCode) →
      truthy r.log.rootCause = true →
      makeNodeId "RootCause" (orEmpty r.log.rootCause) ≠
        makeNodeId "RootCause" (orEmpty rB.log.rootCause))
    (hv : (insightsFor (ingestAll items) m).rootCause = some v) :
    ∃ n2 ∈ (ingestAll items).nodes, n2.nodeValue = v ∧
      n2.nodeId ≠ makeNodeId "RootCause" (orEmpty rB.log.rootCause) ∧
      ∃ r ∈ items, truthy r.log.errorCode = true ∧
        makeNodeId "Error" (orEmpty r.log.errorCode) =
          makeNodeId "Error" (orEmpty m.errorCode) ∧
        n2.nodeId = makeNodeId "RootCause" (orEmpty r.log.rootCause) := by
  obtain ⟨e, he, het, hfrom, n2, hn2, hid, hval⟩ := insightsFor_rootCause _ _ _ hv
  obtain ⟨r, hr, hrerr, hrrc, hrfrom, hrto⟩ := hrc_mem_ingestAll items e he het
  have herrA : makeNodeId "Error" (orEmpty r.log.errorCode) =
      makeNodeId "Error" (orEmpty m.errorCode) := by
    rw [← hrfrom, hfrom]
  refine ⟨n2, hn2, hval, ?_, r, hr, hrerr, herrA, ?_⟩
  · rw [hid, hrto]
    exact hscope r hr hrerr herrA hrrc
  · rw [hid, hrto]

/-- Record A: flow `F1`, error `E1`, root cause `R1`, ticket `TA`. -/
def c1ItemA : IngestItem :=
  ⟨{ flowCode := some "F1", triggerType := none, errorCode := some "E1",
     endpointName := none, rootCause := some "R1" }, "TA"⟩

/-- Record B: same flow `F1`, different error `E2`, root cause `R2`, ticket `TB`. -/
def c1ItemB : IngestItem :=
  ⟨{ flowCode := some "F1", triggerType := none, errorCode := some "E2",
     endpointName := none, rootCause := some "R2" }, "TB"⟩

def c1Items : List IngestItem := [c1ItemA, c1ItemB]

/-- The search match corresponding to ticket A. -/
def c1Match : MatchKeys := ⟨some "TA", some "F1", some "E1"⟩

/-- C1 witness: in the concrete two-ticket graph (same FlowCode, different
Error nodes) the enrichment of ticket A returns `R1`, read from a node that
is not ticket B's RootCause node. -/
theorem C1_scoped_enrichment_witness :
    ∃ n2 ∈ (ingestAll c1Items).nodes, n2.nodeValue = "R1" ∧
      n2.nodeId ≠ makeNodeId "RootCause" (orEmpty c1ItemB.log.rootCause) ∧
      ∃ r ∈ c1Items, truthy r.log.errorCode = true ∧
        makeNodeId "Error" (orEmpty r.log.errorCode) =
          makeNodeId "Error" (orEmpty c1Match.errorCode) ∧
        n2.nodeId = makeNodeId "RootCause" (orEmpty r.log.rootCause) :=
  C1_scoped_enrichment c1Items c1Match c1ItemB "R1"
    (by decide) (by decide) (by decide) (by decide) (by decide) (by decide) (by decide)

/-! ## Claim C2: what does the recurrence count actually count? -/

/-- The number the claim describes: distinct tickets `T` such that an edge
`F --LOGGED_IN--> T` exists and an edge `T --HAD_ERROR--> E` exists. -/
def distinctTicketRecurrence (db : GraphDB) (flowNode errorNode : String) : Nat :=
  ((((db.edges.filter (fun e =>
        e.fromNode == flowNode && e.edgeType == "LOGGED_IN")).map
      (fun e => e.toNode)).filter (fun t =>
        db.edges.any (fun e2 =>
          e2.fromNode == t && e2.edgeType == "HAD_ERROR" && e2.toNode == errorNode)))).dedup.length

/-- Two records with the same flow and error but different tickets. -/
def c2Items : List IngestItem :=
  [⟨{ flowCode := some "F1", triggerType := none, errorCode := some "E1",
      endpointName := none, rootCause := none }, "T1"⟩,
   ⟨{ flowCode := some "F1", triggerType := none, errorCode := some "E1",
      endpointName := none, rootCause := none }, "T2"⟩]

def c2Db : GraphDB := ingestAll c2Items

/-- C2: after ingesting the same flow/error pair under two distinct tickets,
the recurrence count the code computes (`GET_RECURRENCE_SQL`, the number of
`FlowCode --HAD_ERROR--> Error` edges, capped at 1 by edge uniqueness) is 1,
even though two distinct tickets were logged in this flow; the claim's own
counting rule over `T --HAD_ERROR--> E` edges even evaluates to 0 because
the write path never creates ticket-sourced `HAD_ERROR` edges.  So
`recurrenceCount` does not equal the number of distinct tickets in which
this flow hit this error. -/
theorem C2_recurrence_not_ticket_count :
    (insightsFor c2Db ⟨some "T1", some "F1", some "E1"⟩).recurrenceCount = 1 ∧
    distinctTicketRecurrence c2Db (makeNodeId "FlowCode" "F1") (makeNodeId "Error" "E1") = 0 ∧
    ((c2Db.edges.filter (fun e =>
        e.fromNode == makeNodeId "FlowCode" "F1" &&
        e.edgeType == "LOGGED_IN")).map (fun e => e.toNode)).dedup.length = 2 := by
  decide

/-! ## Idempotent upsert (`oracle_semantic_repository.py`, claim C5) -/

/-- The payload of `merge_content` — the `LogRecord` dataclass of
`oracle_semantic_repository.py`.  Serialisations applied by the source
(`json.dumps(record.attributes)`, float-array packing of the vector) are
deterministic functions of these fields, so rows store the fields
themselves. -/
structure AiopsLogRecord where
  logId : String
  eventTime : Option String
  flowCode : Option String
  actionName : Option String
  endpointName : Option String
  errorLevel : Option String
  errorCode : Option String
  semanticText : String
  rawJson : String
  attributes : List (String × String)
  vector : List ℚ
  deriving Repr, DecidableEq

/-- One row of `SS_ERROR_LOGS` (same columns as the record). -/
abbrev SsErrorLogsRow := AiopsLogRecord

/-- The `WHEN MATCHED THEN UPDATE` arm of the MERGE: every mutable column,
including the vector, is overwritten; `LOG_ID` (the merge key) is kept. -/
def overwriteRow (r : AiopsLogRecord) (row : SsErrorLogsRow) : SsErrorLogsRow :=
  { row with
      eventTime := r.eventTime
      flowCode := r.flowCode
      actionName := r.actionName
      endpointName := r.endpointName
      errorLevel := r.errorLevel
      errorCode := r.errorCode
      semanticText := r.semanticText
      rawJson := r.rawJson
      attributes := r.attributes
      vector := r.vector }

/-- `merge_content`: `MERGE INTO SS_ERROR_LOGS ... ON (tgt.LOG_ID = src.log_id)`
— rows whose `LOG_ID` matches are updated in place (all mutable fields),
otherwise the record is inserted as a new row. -/
def mergeContent (store : List SsErrorLogsRow) (r : AiopsLogRecord) : List SsErrorLogsRow :=
  if store.any (fun row => row.logId == r.logId) then
    store.map (fun row => if row.logId == r.logId then overwriteRow r row else row)
  else
    store ++ [r]

theorem merge_matched (store : List SsErrorLogsRow) (r : AiopsLogRecord)
    (hex : store.any (fun row => row.logId == r.logId) = true) :
    mergeContent store r =
      store.map (fun row => if row.logId == r.logId then overwriteRow r row else row) := by
  unfold mergeContent
  rw [if_pos hex]

theorem merge_not_matched (store : List SsErrorLogsRow) (r : AiopsLogRecord)
    (hex : store.any (fun row => row.logId == r.logId) = false) :
    mergeContent store r = store ++ [r] := by
  unfold mergeContent
  rw [if_neg (by simp [hex])]

/-- C5.  `merge` is idempotent: merging the same record twice leaves the
store exactly as merging it once; moreover when a row with the record's id
exists every mutable field (including the vector) is overwritten in place,
and otherwise the record is appended as a new row. -/
theorem C5_merge_idempotent (store : List SsErrorLogsRow) (r : AiopsLogRecord) :
    mergeContent (mergeContent store r) r = mergeContent store r ∧
    (store.any (fun row => row.logId == r.logId) = true →
      mergeContent store r =
        store.map (fun row => if row.logId == r.logId then overwriteRow r row else row)) ∧
    (store.any (fun row => row.logId == r.logId) = false →
      mergeContent store r = store ++ [r]) := by
  refine ⟨?_, merge_matched store r, merge_not_matched store r⟩
  by_cases hex : store.any (fun row => row.logId == r.logId) = true
  · rw [merge_matched store r hex]
    obtain ⟨w, hw, hwid⟩ := List.any_eq_true.mp hex
    have hex2 : (store.map (fun row =>
        if row.logId == r.logId then overwriteRow r row else row)).any
          (fun row => row.logId == r.logId) = true := by
      refine List.any_eq_true.mpr ⟨_, List.mem_map_of_mem _ hw, ?_⟩
      rw [if_pos hwid]
      exact hwid
    rw [merge_matched _ r hex2, List.map_map]
    refine List.map_congr_left (fun row _ => ?_)
    dsimp only [Function.comp]
    by_cases hid : (row.logId == r.logId) = true
    · rw [if_pos hid, if_pos (show ((overwriteRow r row).logId == r.logId) = true from hid)]
      rfl
    · rw [if_neg hid, if_neg hid]
  · have hexf : store.any (fun row => row.logId == r.logId) = false :=
      Bool.eq_false_iff.mpr (fun hc => hex hc)
    rw [merge_not_matched store r hexf]
    have hex2 : (store ++ [r]).any (fun row => row.logId == r.logId) = true :=
      List.any_eq_true.mpr ⟨r, by simp, by simp⟩
    rw [merge_matched _ r hex2, List.map_append]
    have hmap : store.map (fun row => if row.logId == r.logId then overwriteRow r row else row)
        = store.map id := by
      refine List.map_congr_left (fun row hrow => ?_)
      have hfalse : (row.logId == r.logId) = false := by
        rcases Bool.eq_false_or_eq_true (row.logId == r.logId) with htr | hf
        · exact absurd (List.any_eq_true.mpr ⟨row, hrow, htr⟩) hex
        · exact hf
      rw [if_neg (by simp [hfalse])]
      rfl
    rw [hmap, List.map_id]
    have hone : overwriteRow r r = r := rfl
    simp [hone]

/-! ## Ingestion pipeline (`src/ingestion_service.py`, claim C3) -/

/-- A raised Python exception: either a FastAPI `HTTPException` or any other
exception with its message. -/
inductive PyExc where
  | http (status : Nat) (detail : String)
  | err (msg : String)
  deriving Repr, DecidableEq

/-- Python `str(e)`: for `HTTPException` this is `f"{status_code}: {detail}"`
(Starlette), for other exceptions the message. -/
def excStr : PyExc → String
  | .http c d => toString c ++ ": " ++ d
  | .err m => m

/-- Python `s.upper()` on ASCII hex digests. -/
def strUpper (s : String) : String :=
  String.mk (s.data.map Char.toUpper)

/-- The detail string of the 409 raised on a duplicate. -/
def dupDetail (logHash : String) : String :=
  "Duplicate log: This log has already been ingested (hash: " ++
    strTake 16 logHash ++ "...)"

/-- The collaborators `ingest_log` calls, plus the `OLL_LOGS` state it reads
and writes (modelled as the list of stored `LOG_HASH` values); `newLogId`
is the fresh uuid `insert_log` would mint. -/
structure IngestEnv where
  store : List String
  normalizedJiraId : Except String (Option String)
  embedding : Except String (List ℚ)
  insertOutcome : Except String Unit
  newLogId : String

/-- The body of `ingest_log` (the `try` block): duplicate gate on the
record hash, normalization, Jira-id extraction or generation, embedding,
DB insert.  Returns the updated store with the log and Jira ids, or the
exception the body raises. -/
def ingestBody (env : IngestEnv) (logHash : String) :
    Except PyExc (List String × String × String) :=
  if env.store.contains logHash then
    .error (.http 409 (dupDetail logHash))
  else
    match env.normalizedJiraId with
    | .error m => .error (.err m)
    | .ok jid =>
      let jiraId :=
        if truthy jid then orEmpty jid
        else "https://promptlyai.atlassian.net/browse/OLL-" ++ strUpper (strTake 8 logHash)
      match env.embedding with
      | .error m => .error (.err m)
      | .ok _ =>
        match env.insertOutcome with
        | .error m => .error (.err m)
        | .ok _ => .ok (env.store ++ [logHash], env.newLogId, jiraId)

/-- `ingest_log`: the `try/except Exception` wrapper around the body.  Any
exception raised in the body — the 409 duplicate `HTTPException` included —
is caught and re-raised as a 500 with detail `f"Ingestion failed: {e}"`. -/
def ingest_log (env : IngestEnv) (logHash : String) :
    List String × Except PyExc (String × String) :=
  match ingestBody env logHash with
  | .ok (storeAfter, lid, jid) => (storeAfter, .ok (lid, jid))
  | .error e => (env.store, .error (.http 500 ("Ingestion failed: " ++ excStr e)))

/-- C3.  Re-ingesting a record whose hash is already stored terminates the
ingest without writing anything (the store is unchanged and no record id is
produced) — but the outcome the caller sees is an HTTP 500
`"Ingestion failed: 409: Duplicate log: ..."`, not a 409-class duplicate
outcome: the blanket `except Exception` swallows the 409 the code itself
raises and re-raises it as a generic internal failure. -/
theorem C3_duplicate_reported_as_500 (env : IngestEnv) (logHash : String)
    (hdup : env.store.contains logHash = true) :
    ingest_log env logHash =
      (env.store,
       .error (.http 500 ("Ingestion failed: " ++ excStr (.http 409 (dupDetail logHash))))) := by
  unfold ingest_log ingestBody
  rw [if_pos hdup]

/-- Concrete duplicate scenario: the hash is already present. -/
def c3Env : IngestEnv :=
  { store := ["abc123"], normalizedJiraId := .ok none, embedding := .ok [],
    insertOutcome := .ok (), newLogId := "LOG-1" }

/-- C3 witness: the duplicate path evaluated at a concrete store. -/
theorem C3_duplicate_reported_as_500_witness :
    ingest_log c3Env "abc123" =
      (["abc123"],
       .error (.http 500 ("Ingestion failed: " ++ excStr (.http 409 (dupDetail "abc123"))))) :=
  C3_duplicate_reported_as_500 c3Env "abc123" (by decide)

/-! ## Match decision policy (`aiops_service.py`, claim C4) -/

/-- One row returned by the `semantic_search` SQL (`SS_ERROR_LOGS` ordered by
cosine distance, `SIMILARITY = 1 - VECTOR_DISTANCE`; the column can be
NULL). -/
structure DbSearchRow where
  logId : String
  flowCode : Option String
  actionName : Option String
  errorLevel : Option String
  errorCode : Option String
  semanticText : String
  eventTime : Option String
  similarity : Option ℚ
  deriving Repr, DecidableEq

/-- The `SearchResult` dataclass of `oracle_semantic_repository.py`. -/
structure AiopsSearchResult where
  logId : String
  similarity : ℚ
  flowCode : Option String
  actionName : Option String
  errorLevel : Option String
  errorCode : Option String
  semanticText : String
  eventTime : Option String
  deriving Repr, DecidableEq

/-- `float(similarity) if similarity is not None else 0.0`. -/
def simFloat (row : DbSearchRow) : ℚ :=
  match row.similarity with
  | some q => q
  | none => 0

/-- The row post-processing of `semantic_search`: parse the similarity,
skip rows below `min_similarity`, keep the database order. -/
def semanticSearchPost (rows : List DbSearchRow) (minSim : ℚ) : List AiopsSearchResult :=
  rows.filterMap fun row =>
    if simFloat row < minSim then none
    else some { logId := row.logId, similarity := simFloat row, flowCode := row.flowCode,
                actionName := row.actionName, errorLevel := row.errorLevel,
                errorCode := row.errorCode, semanticText := row.semanticText,
                eventTime := row.eventTime }

/-- The `MatchDecision` dataclass (wall-clock duration omitted). -/
structure AiopsMatchDecision where
  status : String
  similarity : ℚ
  topMatch : Option AiopsSearchResult
  alternatives : List AiopsSearchResult
  semanticText : String
  deriving Repr, DecidableEq

/-- `AIOpsService._decide_status`. -/
def decideStatus (thresholdKnown thresholdRelated sim : ℚ) : String :=
  if sim > thresholdKnown then "known"
  else if sim > thresholdRelated then "related"
  else "new"

/-- Step 3 and step 4 of `AIOpsService.match_error`: retrieve with
`min_similarity=0.0`, then decide.  The empty case returns status `empty`
with similarity 0 and no top match; otherwise the first result is the top
match and the rest are alternatives. -/
def matchErrorDecision (thresholdKnown thresholdRelated : ℚ) (semanticText : String)
    (rows : List DbSearchRow) : AiopsMatchDecision :=
  match semanticSearchPost rows 0 with
  | [] =>
    { status := "empty", similarity := 0, topMatch := none,
      alternatives := [], semanticText := semanticText }
  | top :: alts =>
    { status := decideStatus thresholdKnown thresholdRelated top.similarity,
      similarity := top.similarity, topMatch := some top,
      alternatives := alts, semanticText := semanticText }

/-- C4.  The match decision policy at the default thresholds 0.90 / 0.75:
when no retrieved candidate passes the minimum-similarity filter the
decision is `empty` with similarity 0 and no top match; otherwise the top
match is a highest-similarity candidate of the filtered list and its
similarity `s` is classified `known` when `s > 0.90`, else `related` when
`s > 0.75`, else `new`.  The rows are assumed sorted by similarity
descending, which is what `ORDER BY VECTOR_DISTANCE` delivers. -/
theorem C4_match_decision_policy (semanticText : String) (rows : List DbSearchRow)
    (hsorted : rows.Pairwise (fun a b => simFloat b ≤ simFloat a)) :
    (semanticSearchPost rows 0 = [] →
      matchErrorDecision (9/10) (3/4) semanticText rows =
        { status := "empty", similarity := 0, topMatch := none,
          alternatives := [], semanticText := semanticText }) ∧
    (∀ top alts, semanticSearchPost rows 0 = top :: alts →
      (matchErrorDecision (9/10) (3/4) semanticText rows).topMatch = some top ∧
      (matchErrorDecision (9/10) (3/4) semanticText rows).similarity = top.similarity ∧
      (matchErrorDecision (9/10) (3/4) semanticText rows).alternatives = alts ∧
      (∀ c ∈ semanticSearchPost rows 0, c.similarity ≤ top.similarity) ∧
      (matchErrorDecision (9/10) (3/4) semanticText rows).status =
        (if top.similarity > 9/10 then "known"
         else if top.similarity > 3/4 then "related" else "new")) := by
  constructor
  · intro h
    unfold matchErrorDecision
    rw [h]
  · intro top alts h
    have hpw : (semanticSearchPost rows 0).Pairwise
        (fun x y => y.similarity ≤ x.similarity) := by
      unfold semanticSearchPost
      refine List.Pairwise.filterMap _ ?_ hsorted
      intro a b hab x hx y hy
      by_cases ha : simFloat a < 0
      · rw [if_pos ha] at hx
        cases hx
      · rw [if_neg ha] at hx
        by_cases hb : simFloat b < 0
        · rw [if_pos hb] at hy
          cases hy
        · rw [if_neg hb] at hy
          simp only [Option.mem_some_iff] at hx hy
          rw [← hx, ← hy]
          exact hab
    rw [h] at hpw
    refine ⟨?_, ?_, ?_, ?_, ?_⟩
    · unfold matchErrorDecision
      rw [h]
    · unfold matchErrorDecision
      rw [h]
    · unfold matchErrorDecision
      rw [h]
    · intro c hc
      rw [h] at hc
      rcases List.mem_cons.mp hc with hc | hc
      · rw [hc]
      · exact (List.pairwise_cons.mp hpw).1 c hc
    · unfold matchErrorDecision
      rw [h]
      rfl

/-- Rows used by the C4 witness: similarities 0.92 and 0.80, descending. -/
def c4Rows : List DbSearchRow :=
  [{ logId := "L1", flowCode := none, actionName := none, errorLevel := none,
     errorCode := none, semanticText := "t1", eventTime := none, similarity := some (92/100) },
   { logId := "L2", flowCode := none, actionName := none, errorLevel := none,
     errorCode := none, semanticText := "t2", eventTime := none, similarity := some (80/100) }]

unseal Rat.mul Rat.inv in
/-- C4 witness: the policy applied to two concrete candidates (0.92, 0.80):
the 0.92 candidate is the top match and is classified `known`. -/
theorem C4_match_decision_policy_witness :
    (matchErrorDecision (9/10) (3/4) "q" c4Rows).topMatch =
      some { logId := "L1", similarity := 92/100, flowCode := none, actionName := none,
             errorLevel := none, errorCode := none, semanticText := "t1", eventTime := none } ∧
    (matchErrorDecision (9/10) (3/4) "q" c4Rows).status = "known" := by
  have h := (C4_match_decision_policy "q" c4Rows (by decide)).2
    { logId := "L1", similarity := 92/100, flowCode := none, actionName := none,
      errorLevel := none, errorCode := none, semanticText := "t1", eventTime := none }
    [{ logId := "L2", similarity := 80/100, flowCode := none, actionName := none,
       errorLevel := none, errorCode := none, semanticText := "t2", eventTime := none }]
    (by decide)
  refine ⟨h.1, ?_⟩
  rw [h.2.2.2.2]
  decide

/-! ## Search pipeline (`src/search_service.py`, claims C7 and C10) -/

/-- One row of `SEARCH_SIMILAR_SQL` over `OLL_LOGS` (`similarity_score` is
the raw cosine distance column). -/
structure OllSearchRow where
  logId : String
  jiraId : Option String
  flowCode : Option String
  triggerType : Option String
  errorCode : Option String
  errorSummary : Option String
  similarityScore : Option ℚ
  normalizedJson : Option String
  deriving Repr, DecidableEq

/-- One search match: the dict built in step 4 of `search_log`, with the
optional reranker fields (step 5) and enrichment field (step 7). -/
structure Candidate where
  jiraId : Option String
  similarityScore : ℚ
  flowCode : Option String
  triggerType : Option String
  errorCode : Option String
  errorSummary : String
  normalizedJson : Option String
  rank : Option Nat
  classification : Option String
  confidence : Option Nat
  reasoning : Option String
  kgInsights : Option KgInsights
  deriving Repr, DecidableEq

/-- Python `round(x, 2)` on the percentage score (Python's float
half-to-even tie behaviour differs from `round` only at exact `.005` ties,
which no claim depends on). -/
def pyRound2 (q : ℚ) : ℚ := (round (q * 100) : ℤ) / 100

/-- Step 4 of `search_log`: distance → percentage similarity, summary
truncated to 150 characters, no rank/classification/confidence/reasoning
keys, no insights. -/
def formatMatch (row : OllSearchRow) : Candidate :=
  let distance : ℚ := match row.similarityScore with | some q => q | none => 1
  let sim := pyRound2 ((1 - distance) * 100)
  let summary := orEmpty row.errorSummary
  { jiraId := row.jiraId, similarityScore := sim, flowCode := row.flowCode,
    triggerType := row.triggerType, errorCode := row.errorCode,
    errorSummary := strTake 150 summary ++ (if 150 < summary.length then "..." else ""),
    normalizedJson := row.normalizedJson, rank := none, classification := none,
    confidence := none, reasoning := none, kgInsights := none }

/-- One item of the model's structured rerank response. -/
structure RerankItem where
  jiraId : Option String
  rank : Option Nat
  classification : Option String
  confidence : Option Nat
  reasoning : Option String
  deriving Repr, DecidableEq

/-- Python dict assignment `m[k] = c` (last writer wins). -/
def dictInsert (m : List (Option String × Candidate)) (k : Option String)
    (c : Candidate) : List (Option String × Candidate) :=
  if m.any (fun p => p.1 == k) then
    m.map (fun p => if p.1 == k then (k, c) else p)
  else m ++ [(k, c)]

/-- Python dict lookup. -/
def dictGet (m : List (Option String × Candidate)) (k : Option String) : Option Candidate :=
  (m.find? (fun p => p.1 == k)).map (fun p => p.2)

/-- The `jira_to_candidate` lookup of `rerank_with_llm`: every candidate is
keyed by its full `jira_id` and, when that is truthy, also by the short
ticket-id suffix. -/
def buildLookup (cands : List Candidate) : List (Option String × Candidate) :=
  cands.foldl (fun m c =>
    let m1 := dictInsert m c.jiraId c
    if truthy c.jiraId then dictInsert m1 (some (lastSeg (orEmpty c.jiraId))) c
    else m1) []

/-- `rerank_with_llm`: on any failure talking to the model (the whole `try`
body) return the original candidates; on success merge the returned items
onto the matching candidates by jira id, drop unknown ids, sort ascending
by rank (999 when absent). -/
def rerank_with_llm (llm : Except String (List RerankItem))
    (candidates : List Candidate) : List Candidate :=
  match llm with
  | .error _ => candidates
  | .ok items =>
    let lookup := buildLookup candidates
    let enhanced := items.filterMap (fun it =>
      match dictGet lookup it.jiraId with
      | some c => some { c with
          rank := it.rank
          classification := it.classification
          confidence := it.confidence
          reasoning := it.reasoning }
      | none => none)
    List.insertionSort (fun x y => x.rank.getD 999 ≤ y.rank.getD 999) enhanced

/-- `EDGE_MAP.get(classification)`. -/
def classificationEdgeType : Option String → Option String
  | some "EXACT_DUPLICATE" => some "DUPLICATE_OF"
  | some "SIMILAR_ROOT_CAUSE" => some "RELATED_TO"
  | some "RELATED" => some "RELATED_TO"
  | _ => none

/-- The loop body of `_persist_relationships`: write one edge when the
classification maps to an edge type and both the query and the match have a
truthy jira id. -/
def persistStep (queryJiraId : Option String) (d : GraphDB) (m : Candidate) : GraphDB :=
  match classificationEdgeType m.classification with
  | some et =>
    if truthy queryJiraId && truthy m.jiraId then
      addJiraRelationship d (orEmpty queryJiraId) (orEmpty m.jiraId) et m.confidence
    else d
  | none => d

/-- `_persist_relationships`. -/
def persistRelationships (db : GraphDB) (queryJiraId : Option String)
    (ms : List Candidate) : GraphDB :=
  ms.foldl (persistStep queryJiraId) db

/-- The keys `enrich_search_results` reads from a match dict. -/
def candidateKeys (c : Candidate) : MatchKeys :=
  ⟨c.jiraId, c.flowCode, c.errorCode⟩

/-- `enrich_search_results` over search matches: attach `kg_insights` to
each match (a pure read of the graph). -/
def enrichSearchResults (db : GraphDB) (ms : List Candidate) : List Candidate :=
  ms.map (fun m => { m with kgInsights := some (insightsFor db (candidateKeys m)) })

/-- The collaborators `search_log` calls plus the graph store it may touch. -/
structure SearchEnv where
  normalizeOutcome : Except String Unit
  embedding : Except String (List ℚ)
  dbRows : Except String (List OllSearchRow)
  llm : Except String (List RerankItem)
  graph : GraphDB

/-- `search_log`: normalize, embed, vector search, format, rerank, persist
relationships with `query_jira_id = None` (the query log is not in the DB),
enrich.  A failure of a core step surfaces as an HTTP 500. -/
def search_log (env : SearchEnv) (topN : Nat) : GraphDB × Except PyExc (List Candidate) :=
  match env.normalizeOutcome with
  | .error m => (env.graph, .error (.http 500 ("Search failed: " ++ m)))
  | .ok _ =>
    match env.embedding with
    | .error m => (env.graph, .error (.http 500 ("Search failed: " ++ m)))
    | .ok _ =>
      match env.dbRows with
      | .error m => (env.graph, .error (.http 500 ("Search failed: " ++ m)))
      | .ok rows =>
        let formatted := rows.map formatMatch
        let enhanced := rerank_with_llm env.llm formatted
        let finalResults := enhanced.take topN
        let graph2 := persistRelationships env.graph none finalResults
        let final2 := enrichSearchResults graph2 finalResults
        (graph2, .ok final2)

theorem rerank_with_llm_error (e : String) (cands : List Candidate) :
    rerank_with_llm (.error e) cands = cands := rfl

theorem persistStep_none (d : GraphDB) (m : Candidate) : persistStep none d m = d := by
  unfold persistStep
  cases classificationEdgeType m.classification with
  | none => rfl
  | some et =>
    show (if truthy none && truthy m.jiraId then _ else d) = d
    rw [if_neg (by simp [truthy])]

theorem persistRelationships_none (db : GraphDB) (ms : List Candidate) :
    persistRelationships db none ms = db := by
  induction ms generalizing db with
  | nil => rfl
  | cons m rest ih =>
    show List.foldl (persistStep none) (persistStep none db m) rest = db
    rw [persistStep_none]
    exact ih db

/-- C10.  A `Search` call never writes a relationship edge: `search_log`
passes `query_jira_id = None` into the persistence step, whose guard
requires a truthy query id, so for every environment (whatever the reranker
returns) the graph store — its `DUPLICATE_OF`/`RELATED_TO` edges included —
comes back exactly as it went in. -/
theorem C10_search_writes_nothing (env : SearchEnv) (topN : Nat) :
    (search_log env topN).1 = env.graph ∧
    (∀ (db : GraphDB) (ms : List Candidate), persistRelationships db none ms = db) := by
  constructor
  · unfold search_log
    cases env.normalizeOutcome with
    | error m => rfl
    | ok u =>
      cases env.embedding with
      | error m => rfl
      | ok v =>
        cases env.dbRows with
        | error m => rfl
        | ok rows =>
          exact persistRelationships_none _ _
  · exact persistRelationships_none

/-- C7.  Rerank graceful degradation: when the language-model collaborator
fails (for any reason) while the core steps succeed, the rerank step
returns its candidate list unchanged, `search_log` succeeds — no error
reaches the caller — with exactly the similarity-ranked formatted matches
(enriched with graph insights only), and no match carries a rank,
classification, confidence or reasoning. -/
theorem C7_rerank_degrades (env : SearchEnv) (topN : Nat)
    (rows : List OllSearchRow) (emb : List ℚ) (emsg : String)
    (hn : env.normalizeOutcome = .ok ())
    (he : env.embedding = .ok emb)
    (hr : env.dbRows = .ok rows)
    (hllm : env.llm = .error emsg) :
    rerank_with_llm env.llm (rows.map formatMatch) = rows.map formatMatch ∧
    (search_log env topN).2 =
      .ok (enrichSearchResults env.graph ((rows.map formatMatch).take topN)) ∧
    (∀ c ∈ enrichSearchResults env.graph ((rows.map formatMatch).take topN),
      c.rank = none ∧ c.classification = none ∧ c.confidence = none ∧
        c.reasoning = none) := by
  have hclean : ∀ c ∈ rows.map formatMatch,
      c.rank = none ∧ c.classification = none ∧ c.confidence = none ∧
        c.reasoning = none := by
    intro c hc
    obtain ⟨row, _, hrow⟩ := List.mem_map.mp hc
    rw [← hrow]
    exact ⟨rfl, rfl, rfl, rfl⟩
  refine ⟨?_, ?_, ?_⟩
  · rw [hllm]
    rfl
  · unfold search_log
    rw [hn, he, hr]
    dsimp only
    rw [hllm, rerank_with_llm_error, persistRelationships_none]
  · intro c hc
    obtain ⟨m, hm, hmc⟩ := List.mem_map.mp hc
    have := hclean m (List.mem_of_mem_take hm)
    rw [← hmc]
    exact this

/-- The concrete environment of the C7 witness: one candidate row, a
failing reranker. -/
def c7Row : OllSearchRow :=
  { logId := "L1", jiraId := some "TA", flowCode := some "F1",
    triggerType := none, errorCode := some "E1", errorSummary := some "boom",
    similarityScore := some (5/100), normalizedJson := none }

def c7Env : SearchEnv :=
  { normalizeOutcome := .ok (), embedding := .ok [1, 0],
    dbRows := .ok [c7Row], llm := .error "timeout", graph := emptyGraph }

/-- C7 witness: with the reranker failing on the concrete environment,
`search_log` returns the formatted candidate list unchanged (insights
aside) and no error. -/
theorem C7_rerank_degrades_witness :
    (search_log c7Env 5).2 =
      .ok (enrichSearchResults emptyGraph (([c7Row].map formatMatch).take 5)) ∧
    (∀ c ∈ enrichSearchResults emptyGraph (([c7Row].map formatMatch).take 5),
      c.rank = none ∧ c.classification = none ∧ c.confidence = none ∧
        c.reasoning = none) := by
  have h := C7_rerank_degrades c7Env 5 [c7Row] [1, 0] "timeout" rfl rfl rfl rfl
  exact ⟨h.2.1, h.2.2⟩

/-! ## Fingerprint determinism (claim C9)

`ingest_log` computes `hashlib.sha256(json.dumps(raw_log, sort_keys=True)
.encode()).hexdigest()`.  The JSON value model, the canonical key-sorted
serialisation, and the claim that any key-order permutation of the record
yields the same digest. -/

/-- A JSON value (numbers modelled as integers; their textual rendering is
irrelevant to key-order determinism). -/
inductive Json where
  | null : Json
  | bool (b : Bool) : Json
  | num (n : Int) : Json
  | str (s : String) : Json
  | arr (elems : List Json) : Json
  | obj (fields : List (String × Json)) : Json

/-- Order on rendered object fields: by key, as `sort_keys=True` sorts. -/
def keyLe (p q : String × String) : Prop := p.1 ≤ q.1

/-- Strict version of `keyLe`, used to compare sorted runs. -/
def keyLt (p q : String × String) : Prop := p.1 < q.1

instance : DecidableRel keyLe := fun p q => inferInstanceAs (Decidable (p.1 ≤ q.1))

instance : IsTotal (String × String) keyLe := ⟨fun p q => le_total p.1 q.1⟩

instance : IsTrans (String × String) keyLe := ⟨fun _ _ _ h1 h2 => le_trans h1 h2⟩

instance : IsAntisymm (String × String) keyLt := ⟨fun _ _ h1 h2 => absurd h1 (lt_asymm h2)⟩

/-- Sort rendered object fields by key (`sorted` on dict items; keys within
one well-formed object are distinct, so any stable comparison sort produces
this result). -/
def sortFields (kvs : List (String × String)) : List (String × String) :=
  List.insertionSort keyLe kvs

/-- Render one `"key": value` item. -/
def renderField (p : String × String) : String :=
  "\"" ++ p.1 ++ "\": " ++ p.2

def joinComma (xs : List String) : String := String.intercalate ", " xs

mutual

/-- `json.dumps(..., sort_keys=True)`: arrays keep their order, object
fields are serialised in key-sorted order.  (String escaping is omitted —
it is a fixed function of the string and plays no role in key-order
determinism.) -/
def dumps : Json → String
  | .null => "null"
  | .bool b => cond b "true" "false"
  | .num n => toString n
  | .str s => "\"" ++ s ++ "\""
  | .arr elems => "[" ++ joinComma (dumpsList elems) ++ "]"
  | .obj fields => "\x7b" ++ joinComma ((sortFields (dumpsFields fields)).map renderField) ++ "\x7d"

def dumpsList : List Json → List String
  | [] => []
  | x :: xs => dumps x :: dumpsList xs

def dumpsFields : List (String × Json) → List (String × String)
  | [] => []
  | (k, v) :: xs => (k, dumps v) :: dumpsFields xs

end

mutual

/-- Well-formedness: every object has pairwise-distinct keys (guaranteed by
Python dicts). -/
def wfJson : Json → Bool
  | .null => true
  | .bool _ => true
  | .num _ => true
  | .str _ => true
  | .arr elems => wfList elems
  | .obj fields => decide ((fields.map Prod.fst).Nodup) && wfFields fields

def wfList : List Json → Bool
  | [] => true
  | x :: xs => wfJson x && wfList xs

def wfFields : List (String × Json) → Bool
  | [] => true
  | (_, v) :: xs => wfJson v && wfFields xs

end

mutual

/-- `KeyPerm a b`: `b` is `a` with the key/value pairs of each object
permuted (recursively) — the same logical record under another key order. -/
inductive KeyPerm : Json → Json → Prop where
  | null : KeyPerm .null .null
  | bool (b : Bool) : KeyPerm (.bool b) (.bool b)
  | num (n : Int) : KeyPerm (.num n) (.num n)
  | str (s : String) : KeyPerm (.str s) (.str s)
  | arr {xs ys : List Json} : KeyPermList xs ys → KeyPerm (.arr xs) (.arr ys)
  | obj {kvs mid kvs2 : List (String × Json)} :
      KeyPermFields kvs mid → mid.Perm kvs2 → KeyPerm (.obj kvs) (.obj kvs2)

inductive KeyPermList : List Json → List Json → Prop where
  | nil : KeyPermList [] []
  | cons {x y : Json} {xs ys : List Json} :
      KeyPerm x y → KeyPermList xs ys → KeyPermList (x :: xs) (y :: ys)

inductive KeyPermFields : List (String × Json) → List (String × Json) → Prop where
  | nil : KeyPermFields [] []
  | cons (k : String) {v w : Json} {xs ys : List (String × Json)} :
      KeyPerm v w → KeyPermFields xs ys →
      KeyPermFields ((k, v) :: xs) ((k, w) :: ys)

end

theorem dumpsFields_eq_map :
    ∀ l : List (String × Json), dumpsFields l = l.map (fun p => (p.1, dumps p.2))
  | [] => rfl
  | (k, v) :: xs => by
    simp only [dumpsFields, List.map_cons]
    rw [dumpsFields_eq_map xs]

theorem keys_dumpsFields (l : List (String × Json)) :
    (dumpsFields l).map Prod.fst = l.map Prod.fst := by
  rw [dumpsFields_eq_map, List.map_map]
  rfl

/-- Two permuted field lists with distinct keys sort identically. -/
theorem sortFields_eq_of_perm (l1 l2 : List (String × String)) (hp : l1.Perm l2)
    (hnd : (l1.map Prod.fst).Nodup) : sortFields l1 = sortFields l2 := by
  have hs1 : List.Sorted keyLe (sortFields l1) := List.sorted_insertionSort keyLe l1
  have hs2 : List.Sorted keyLe (sortFields l2) := List.sorted_insertionSort keyLe l2
  have hp2 : (sortFields l1).Perm (sortFields l2) :=
    (List.perm_insertionSort keyLe l1).trans (hp.trans (List.perm_insertionSort keyLe l2).symm)
  have hnd1 : ((sortFields l1).map Prod.fst).Nodup :=
    (((List.perm_insertionSort keyLe l1).map Prod.fst).nodup_iff).mpr hnd
  have hnd2 : ((sortFields l2).map Prod.fst).Nodup :=
    ((hp2.map Prod.fst).nodup_iff).mp hnd1
  have hne1 : (sortFields l1).Pairwise (fun p q => p.1 ≠ q.1) :=
    List.pairwise_map.mp hnd1
  have hne2 : (sortFields l2).Pairwise (fun p q => p.1 ≠ q.1) :=
    List.pairwise_map.mp hnd2
  have hlt1 : List.Sorted keyLt (sortFields l1) :=
    (hs1.and hne1).imp (fun h => lt_of_le_of_ne h.1 h.2)
  have hlt2 : List.Sorted keyLt (sortFields l2) :=
    (hs2.and hne2).imp (fun h => lt_of_le_of_ne h.1 h.2)
  exact List.eq_of_perm_of_sorted hp2 hlt1 hlt2

mutual

theorem dumps_keyPerm : ∀ {a b : Json}, KeyPerm a b → wfJson a = true → dumps a = dumps b
  | _, _, .null, _ => rfl
  | _, _, .bool b, _ => rfl
  | _, _, .num n, _ => rfl
  | _, _, .str s, _ => rfl
  | _, _, .arr hl, hwf => by
    have hwfL := by simpa only [wfJson] using hwf
    simp only [dumps]
    rw [dumpsList_keyPerm hl hwfL]
  | _, _, .obj hf hperm, hwf => by
    rename_i kvs mid kvs2
    have hnd : (kvs.map Prod.fst).Nodup := by
      simp only [wfJson, Bool.and_eq_true, decide_eq_true_eq] at hwf
      exact hwf.1
    have hwfF : wfFields kvs = true := by
      simp only [wfJson, Bool.and_eq_true] at hwf
      exact hwf.2
    have h1 : dumpsFields kvs = dumpsFields mid := dumpsFields_keyPerm hf hwfF
    have h2 : (dumpsFields mid).Perm (dumpsFields kvs2) := by
      rw [dumpsFields_eq_map, dumpsFields_eq_map]
      exact hperm.map _
    have hperm2 : (dumpsFields kvs).Perm (dumpsFields kvs2) := h1 ▸ h2
    have hndr : ((dumpsFields kvs).map Prod.fst).Nodup := by
      rw [keys_dumpsFields]
      exact hnd
    simp only [dumps]
    rw [sortFields_eq_of_perm _ _ hperm2 hndr]

theorem dumpsList_keyPerm :
    ∀ {xs ys : List Json}, KeyPermList xs ys → wfList xs = true → dumpsList xs = dumpsList ys
  | _, _, .nil, _ => rfl
  | _, _, @KeyPermList.cons x y xs ys hx hxs, hwf => by
    have h1 : wfJson x = true ∧ wfList xs = true := by
      simpa only [wfList, Bool.and_eq_true] using hwf
    simp only [dumpsList]
    rw [dumps_keyPerm hx h1.1, dumpsList_keyPerm hxs h1.2]

theorem dumpsFields_keyPerm :
    ∀ {xs ys : List (String × Json)}, KeyPermFields xs ys → wfFields xs = true →
      dumpsFields xs = dumpsFields ys
  | _, _, .nil, _ => rfl
  | _, _, @KeyPermFields.cons k v w xs ys hv hxs, hwf => by
    have h1 : wfJson v = true ∧ wfFields xs = true := by
      simpa only [wfFields, Bool.and_eq_true] using hwf
    simp only [dumpsFields]
    rw [dumps_keyPerm hv h1.1, dumpsFields_keyPerm hxs h1.2]

end

/-- The content fingerprint of `ingest_log` / `_build_record`:
`sha256(json.dumps(raw_log, sort_keys=True).encode()).hexdigest()`.  The
SHA-256 digest is a fixed function of the serialisation, taken here as a
parameter: the claim under verification is determinism of the canonical
serialisation, not a property of the hash itself. -/
def fingerprint (hash : String → String) (raw : Json) : String :=
  hash (dumps raw)

/-- C9.  Fingerprint determinism: for every well-formed raw record and
every key-order permutation of it, the canonical key-sorted serialisation —
hence the digest of any hash function over it — is unchanged. -/
theorem C9_fingerprint_deterministic (hash : String → String) (a b : Json)
    (hwf : wfJson a = true) (h : KeyPerm a b) :
    fingerprint hash a = fingerprint hash b := by
  unfold fingerprint
  rw [dumps_keyPerm h hwf]

/-- `{"b": 1, "a": [{"y": null, "x": true}]}`. -/
def c9A : Json :=
  .obj [("b", .num 1), ("a", .arr [.obj [("y", .null), ("x", .bool true)]])]

/-- The same record with both objects' keys permuted. -/
def c9B : Json :=
  .obj [("a", .arr [.obj [("x", .bool true), ("y", .null)]]), ("b", .num 1)]

theorem c9_keyPerm : KeyPerm c9A c9B := by
  refine KeyPerm.obj
    (KeyPermFields.cons "b" (KeyPerm.num 1)
      (KeyPermFields.cons "a"
        (KeyPerm.arr (KeyPermList.cons
          (KeyPerm.obj
            (KeyPermFields.cons "y" KeyPerm.null
              (KeyPermFields.cons "x" (KeyPerm.bool true) KeyPermFields.nil))
            (List.Perm.swap _ _ _))
          KeyPermList.nil))
        KeyPermFields.nil))
    (List.Perm.swap _ _ _)

/-- C9 witness: the two key-order permutations of the concrete record
fingerprint identically. -/
theorem C9_fingerprint_deterministic_witness :
    fingerprint (fun s => s) c9A = fingerprint (fun s => s) c9B :=
  C9_fingerprint_deterministic (fun s => s) c9A c9B (by decide) c9_keyPerm

end OicLogLens
